import Mathlib

/-!
Verification of the OnlyTrack backend authentication/session core.

This file shallowly embeds the authentication-relevant parts of the
TypeScript source (src/lib/auth.ts, src/middleware/auth.ts, the auth,
admin-auth, demo and acces-temporaires routers, and the relevant tables
of src/schema.ts) as executable Lean definitions, and proves or refutes
the frozen claims about them.

Modelling conventions:
- Time is an abstract `Nat` clock (the code compares `Date` values; only
  the order matters, so a single monotone clock value `now` is passed in).
- JWTs are modelled symbolically: `Token.signed content exp` is a token
  signed with the single shared server secret (all three planes fall back
  to one secret in the source), `Token.malformed` any string that fails
  verification.  `jwtVerify` checks the expiry claim exactly as
  `jsonwebtoken.verify` does (fails once `now ≥ exp`).
- SHA-256 (`hashToken`) is modelled as an injective constructor; bcrypt
  (`verifyPassword`) as idealized collision-free comparison.
- Database tables are in-memory lists; a drizzle
  `select().where(...).limit(1)` becomes `List.find?`.
-/

/-- The closed role set of tenant principals ("owner" | "member" | "model"). -/
inductive Role where
  | owner
  | member
  | model
deriving DecidableEq, Repr

/-- The payload of a tenant JWT, mirroring `JWTPayload` in src/lib/auth.ts. -/
structure JWTPayload where
  userId : String
  agenceId : String
  role : Role
deriving DecidableEq, Repr

/-- The three payload shapes signed anywhere in the source: tenant payloads
(`generateJWT`), demo payloads (`type:"demo"` in the demo router) and admin
payloads (`type:"admin"` in admin-auth.ts).  All are signed with the same
fallback secret, so verification alone does not separate them; only the
`type` discriminator (here, the constructor) does. -/
inductive JWTContent where
  | user (payload : JWTPayload)
  | demo (accesId : String) (agenceId : String) (nom : String)
  | admin (adminId : String) (email : String)
deriving DecidableEq, Repr

/-- A bearer token: either a well-signed JWT with an expiry claim, or an
arbitrary string that fails signature verification. -/
inductive Token where
  | signed (content : JWTContent) (exp : Nat)
  | malformed (raw : String)
deriving DecidableEq, Repr

/-- `jsonwebtoken.verify` under the single server secret: succeeds exactly on
well-signed, unexpired tokens and yields the decoded payload. -/
def jwtVerify (t : Token) (now : Nat) : Option JWTContent :=
  match t with
  | .signed content exp => if now < exp then some content else none
  | .malformed _ => none

/-- `verifyJWT` from src/lib/auth.ts: returns the decoded payload cast to
`JWTPayload`, or null on any verification failure.  A verified token whose
payload is not a tenant payload decodes to an object without a usable
`userId`; callers that feed it to a drizzle query fail and are caught, which
observably coincides with the `none` branch for the call sites modelled here. -/
def verifyJWT (t : Token) (now : Nat) : Option JWTPayload :=
  match jwtVerify t now with
  | some (.user p) => some p
  | _ => none

/-- SHA-256 digests of tokens, as stored in the sessions table.  The hash is
modelled as an injective embedding (deterministic, collision-free). -/
inductive Hash where
  | ofToken (t : Token)
deriving DecidableEq, Repr

/-- `hashToken` from src/lib/auth.ts (SHA-256 hex digest of the token). -/
def hashToken (t : Token) : Hash := Hash.ofToken t

/-- A bcrypt hash: embeds the hashed plaintext and the salt drawn at hashing
time (which is why `hashPassword` is non-deterministic). -/
inductive PwHash where
  | bcrypt (password : String) (salt : Nat)
deriving DecidableEq, Repr

/-- `hashPassword` from src/lib/auth.ts; the salt is made an explicit input. -/
def hashPassword (password : String) (salt : Nat) : PwHash :=
  PwHash.bcrypt password salt

/-- `verifyPassword` from src/lib/auth.ts: `bcrypt.compare`, idealized as
collision-free (true exactly when the plaintexts agree). -/
def verifyPassword (password : String) (hash : PwHash) : Bool :=
  match hash with
  | .bcrypt stored _ => password == stored

/-- Milliseconds in 7 days, the lifetime of tenant JWTs and sessions. -/
def sevenDaysMs : Nat := 7 * 24 * 60 * 60 * 1000

/-- Milliseconds in 24 hours, the lifetime of demo JWTs. -/
def oneDayMs : Nat := 24 * 60 * 60 * 1000

/-- `generateJWT` from src/lib/auth.ts: signs the tenant payload with a fixed
7-day expiration. -/
def generateJWT (payload : JWTPayload) (now : Nat) : Token :=
  Token.signed (.user payload) (now + sevenDaysMs)

/-- A row of the `utilisateurs` table (src/schema.ts). -/
structure Utilisateur where
  id : String
  prenom : String
  nom : String
  email : String
  motDePasseHash : PwHash
  role : Role
  agenceId : String
  emailVerifie : Bool
  tokenVerification : Option String
  tokenResetPassword : Option String
  dateCreation : Nat
  derniereConnexion : Option Nat
  actif : Bool
deriving DecidableEq, Repr

/-- A row of the `sessions` table (src/schema.ts). -/
structure Session where
  id : String
  utilisateurId : String
  tokenHash : Hash
  dateCreation : Nat
  dateExpiration : Nat
  adresseIp : Option String
  userAgent : Option String
deriving DecidableEq, Repr

/-- A row of the `acces_temporaires` table (src/schema.ts). -/
structure AccesTemporaire where
  id : String
  agenceId : String
  nom : String
  email : Option String
  token : String
  dateCreation : Nat
  dateExpiration : Option Nat
  actif : Bool
  creePar : String
deriving DecidableEq, Repr

/-- A row of the `super_admins` table (src/schema.ts). -/
structure SuperAdmin where
  id : String
  email : String
  motDePasse : PwHash
  nom : String
  prenom : String
  actif : Bool
  dateCreation : Nat
  derniereConnexion : Option Nat
deriving DecidableEq, Repr

/-- A row of the `agences` table (only the fields the modelled routes read). -/
structure Agence where
  id : String
  nom : String
  plan : String
deriving DecidableEq, Repr

/-- The relational store restricted to the tables the auth core touches. -/
structure DB where
  utilisateurs : List Utilisateur
  sessions : List Session
  accesTemporaires : List AccesTemporaire
  superAdmins : List SuperAdmin
  agences : List Agence
deriving DecidableEq, Repr

/-- The cookie jar of one inbound request (the three auth-relevant cookies). -/
structure Cookies where
  auth_token : Option Token
  demo_token : Option Token
  admin_token : Option Token
deriving DecidableEq, Repr

/-- The identity the middleware attaches as `req.user` (src/middleware/auth.ts). -/
structure AuthedUser where
  id : String
  email : String
  role : Role
  agenceId : String
  isDemo : Bool
  demoNom : Option String
deriving DecidableEq, Repr

/-- Outcome of the strict authentication middleware: either `req.user` is
attached and the chain continues, or a status/error response is sent. -/
inductive AuthResult where
  | ok (user : AuthedUser)
  | err (status : Nat) (error : String)
deriving DecidableEq, Repr

/-- The demo branch of `authenticate` (src/middleware/auth.ts, the
`demo_token` block): verify the demo JWT, require the `demo` type
discriminator, load the referenced `acces_temporaires` row, and accept it
only if it is active and has no expiration or a strictly future one.
Returns the synthesized virtual user, or `none` when the branch falls
through to the normal path (every failure is swallowed). -/
def demoAttempt (db : DB) (t : Token) (now : Nat) : Option AuthedUser :=
  match jwtVerify t now with
  | some (.demo accesId _ _) =>
    match db.accesTemporaires.find? (fun a => a.id == accesId) with
    | some acces =>
      if acces.actif && (match acces.dateExpiration with
          | none => true
          | some e => decide (now < e)) then
        some
          { id := "demo-" ++ acces.id
            email := acces.email.getD "demo@onlytrack.io"
            role := .member
            agenceId := acces.agenceId
            isDemo := true
            demoNom := some acces.nom }
      else none
    | none => none
  | _ => none

/-- The session lookup of `authenticate`: the first `sessions` row with
`utilisateurId = userId` and `dateExpiration > now`.  Note the filter is on
the user id, not on the stored `tokenHash`. -/
def findValidSession (db : DB) (userId : String) (now : Nat) : Option Session :=
  db.sessions.find? (fun s => s.utilisateurId == userId && decide (now < s.dateExpiration))

/-- Steps 2-6 of `authenticate` (src/middleware/auth.ts), the normal
`auth_token` path: cookie present, JWT verifies, an unexpired session row
for the payload user id exists, the user row exists and is active.  A
verified `auth_token` whose payload is not a tenant payload has no `userId`
field; the drizzle query built from it throws and the outer catch answers
500. -/
def authenticateNormalPath (db : DB) (authTok : Option Token) (now : Nat) : AuthResult :=
  match authTok with
  | none => .err 401 "Non authentifié - Token manquant"
  | some token =>
    match jwtVerify token now with
    | none => .err 401 "Non authentifié - Token invalide"
    | some (.user payload) =>
      match findValidSession db payload.userId now with
      | none => .err 401 "Session expirée"
      | some _ =>
        match db.utilisateurs.find? (fun u => u.id == payload.userId) with
        | none => .err 401 "Utilisateur inactif ou inexistant"
        | some user =>
          if user.actif then
            .ok
              { id := user.id
                email := user.email
                role := user.role
                agenceId := user.agenceId
                isDemo := false
                demoNom := none }
          else .err 401 "Utilisateur inactif ou inexistant"
    | some _ => .err 500 "Erreur serveur lors de l\x27authentification"

/-- `authenticate` from src/middleware/auth.ts: the demo branch runs first;
any failure in it falls through to the normal `auth_token` path. -/
def authenticate (db : DB) (cookies : Cookies) (now : Nat) : AuthResult :=
  match cookies.demo_token with
  | some demoToken =>
    match demoAttempt db demoToken now with
    | some u => .ok u
    | none => authenticateNormalPath db cookies.auth_token now
  | none => authenticateNormalPath db cookies.auth_token now

/-- Outcome of the role gate `requireRole`: pass the request through, or a
401/403 response (the 403 carries `requiredRoles` and `yourRole`). -/
inductive RoleGateResult where
  | next
  | unauthenticated (error : String)
  | forbidden (error : String) (requiredRoles : List Role) (yourRole : Role)
deriving DecidableEq, Repr

/-- `requireRole` from src/middleware/auth.ts, applied to the `req.user`
value left by the authentication stage. -/
def requireRole (roles : List Role) (user? : Option AuthedUser) : RoleGateResult :=
  match user? with
  | none => .unauthenticated "Non authentifié"
  | some u =>
    if roles.contains u.role then .next
    else .forbidden "Accès refusé - Rôle insuffisant" roles u.role

/-- `authenticateOptional` from src/middleware/auth.ts: reads only the
`auth_token` cookie, verifies the JWT and loads the user row, attaching the
identity only when the user exists and is active; it never responds with an
error and performs no session lookup. -/
def authenticateOptional (db : DB) (cookies : Cookies) (now : Nat) : Option AuthedUser :=
  match cookies.auth_token with
  | none => none
  | some token =>
    match verifyJWT token now with
    | none => none
    | some payload =>
      match db.utilisateurs.find? (fun u => u.id == payload.userId) with
      | some user =>
        if user.actif then
          some
            { id := user.id
              email := user.email
              role := user.role
              agenceId := user.agenceId
              isDemo := false
              demoNom := none }
        else none
      | none => none

/-- Outcome of the admin route guard `requireAdmin`: the loaded admin row is
attached as `req.admin`, or a 401 response is sent. -/
inductive AdminResult where
  | ok (admin : SuperAdmin)
  | err (status : Nat) (error : String)
deriving DecidableEq, Repr

/-- `requireAdmin` from src/routes/admin-auth.ts: reads only the
`admin_token` cookie, verifies the JWT, requires the `admin` type
discriminator, then loads the `super_admins` row and requires it active. -/
def requireAdmin (db : DB) (cookies : Cookies) (now : Nat) : AdminResult :=
  match cookies.admin_token with
  | none => .err 401 "Non authentifié"
  | some token =>
    match jwtVerify token now with
    | none => .err 401 "Token invalide"
    | some (.admin adminId _) =>
      match db.superAdmins.find? (fun a => a.id == adminId) with
      | none => .err 401 "Compte non trouvé ou désactivé"
      | some admin =>
        if admin.actif then .ok admin
        else .err 401 "Compte non trouvé ou désactivé"
    | some _ => .err 401 "Accès non autorisé"

/-- The response and effects of `POST /api/auth/connexion` (the auth router):
HTTP status, error message, the `needsEmailVerification` flag, the
`auth_token` cookie set on success, whether the `demo_token` cookie was
cleared, and the database after the handler ran. -/
structure ConnexionResult where
  status : Nat
  error : Option String
  needsEmailVerification : Bool
  authCookie : Option Token
  demoCleared : Bool
  db : DB
deriving DecidableEq, Repr

/-- `POST /api/auth/connexion` after input validation: look the user up by
email, check the password, require a verified email and an active account,
then sign a 7-day JWT, insert a session row holding `hashToken` of it,
update `derniereConnexion`, clear any `demo_token` cookie and set the
`auth_token` cookie.  `sid` stands for the `crypto.randomUUID()` session id;
`ip` and `ua` for the captured client metadata. -/
def connexion (db : DB) (email password : String) (now : Nat) (sid : String)
    (ip ua : Option String) : ConnexionResult :=
  match db.utilisateurs.find? (fun u => u.email == email) with
  | none =>
    { status := 401, error := some "Email ou mot de passe incorrect"
      needsEmailVerification := false, authCookie := none, demoCleared := false, db := db }
  | some user =>
    if !(verifyPassword password user.motDePasseHash) then
      { status := 401, error := some "Email ou mot de passe incorrect"
        needsEmailVerification := false, authCookie := none, demoCleared := false, db := db }
    else if !user.emailVerifie then
      { status := 403, error := some "Veuillez vérifier votre email avant de vous connecter"
        needsEmailVerification := true, authCookie := none, demoCleared := false, db := db }
    else if !user.actif then
      { status := 403, error := some "Compte désactivé"
        needsEmailVerification := false, authCookie := none, demoCleared := false, db := db }
    else
      let token := generateJWT { userId := user.id, agenceId := user.agenceId, role := user.role } now
      let newSession : Session :=
        { id := sid, utilisateurId := user.id, tokenHash := hashToken token
          dateCreation := now, dateExpiration := now + sevenDaysMs
          adresseIp := ip, userAgent := ua }
      { status := 200, error := none, needsEmailVerification := false
        authCookie := some token, demoCleared := true
        db :=
          { db with
            sessions := db.sessions ++ [newSession]
            utilisateurs := db.utilisateurs.map (fun u =>
              if u.id == user.id then { u with derniereConnexion := some now } else u) } }

/-- The database delete performed by `POST /api/auth/deconnexion`: remove
every session row whose `tokenHash` equals the digest of the presented
`auth_token` (the route also clears both cookies, not modelled here). -/
def deconnexionDelete (db : DB) (cookies : Cookies) : DB :=
  match cookies.auth_token with
  | none => db
  | some token =>
    { db with sessions := db.sessions.filter (fun s => !(s.tokenHash == hashToken token)) }

/-- Response of `GET /api/demo/validate/:token` (the demo router). -/
structure DemoValidateResult where
  status : Nat
  error : Option String
  nom : Option String
  agenceNom : Option String
deriving DecidableEq, Repr

/-- `GET /api/demo/validate/:token`: look the grant up by its raw token;
404 when absent, 403 when revoked, 403 when its expiration lies strictly in
the past, otherwise 200 with the grant label and the agency display name. -/
def demoValidate (db : DB) (tokenParam : String) (now : Nat) : DemoValidateResult :=
  match db.accesTemporaires.find? (fun a => a.token == tokenParam) with
  | none => { status := 404, error := some "Lien non trouvé", nom := none, agenceNom := none }
  | some acces =>
    if !acces.actif then
      { status := 403, error := some "Ce lien a été révoqué", nom := none, agenceNom := none }
    else if (match acces.dateExpiration with
        | some e => decide (e < now)
        | none => false) then
      { status := 403, error := some "Ce lien a expiré", nom := none, agenceNom := none }
    else
      { status := 200, error := none, nom := some acces.nom
        agenceNom := some (match db.agences.find? (fun ag => ag.id == acces.agenceId) with
          | some ag => if ag.nom == "" then "Agence" else ag.nom
          | none => "Agence") }

/-- Response of `POST /api/demo/access/:token` (the demo router). -/
structure DemoAccessResult where
  status : Nat
  error : Option String
  demoCookie : Option Token
  agenceId : Option String
deriving DecidableEq, Repr

/-- `POST /api/demo/access/:token`: same validity checks as the validation
endpoint; on success sign a 24-hour demo JWT referencing the grant and set it
as the `demo_token` cookie. -/
def demoAccess (db : DB) (tokenParam : String) (now : Nat) : DemoAccessResult :=
  match db.accesTemporaires.find? (fun a => a.token == tokenParam) with
  | none => { status := 404, error := some "Lien non trouvé", demoCookie := none, agenceId := none }
  | some acces =>
    if !acces.actif then
      { status := 403, error := some "Ce lien a été révoqué", demoCookie := none, agenceId := none }
    else if (match acces.dateExpiration with
        | some e => decide (e < now)
        | none => false) then
      { status := 403, error := some "Ce lien a expiré", demoCookie := none, agenceId := none }
    else
      { status := 200, error := none
        demoCookie := some (Token.signed (.demo acces.id acces.agenceId acces.nom) (now + oneDayMs))
        agenceId := some acces.agenceId }

/-- Response of `GET /api/acces-temporaires/valider/:token`. -/
structure ValiderResult where
  status : Nat
  valid : Bool
  error : Option String
  agenceId : Option String
  agenceNom : Option String
  nom : Option String
deriving DecidableEq, Repr

/-- `GET /api/acces-temporaires/valider/:token` (the acces-temporaires
router): the public pre-flight validation, with the same
exists/active/not-expired checks (rejection of expired grants is written
`now > e` there, the mirror image of the demo router's `e < now`). -/
def accesValider (db : DB) (tokenParam : String) (now : Nat) : ValiderResult :=
  match db.accesTemporaires.find? (fun a => a.token == tokenParam) with
  | none =>
    { status := 404, valid := false, error := some "Lien d\x27accès invalide"
      agenceId := none, agenceNom := none, nom := none }
  | some acces =>
    if !acces.actif then
      { status := 403, valid := false, error := some "Cet accès a été révoqué"
        agenceId := none, agenceNom := none, nom := none }
    else if (match acces.dateExpiration with
        | some e => decide (now > e)
        | none => false) then
      { status := 403, valid := false, error := some "Cet accès a expiré"
        agenceId := none, agenceNom := none, nom := none }
    else
      { status := 200, valid := true, error := none
        agenceId := some acces.agenceId
        agenceNom := (db.agences.find? (fun ag => ag.id == acces.agenceId)).map (fun ag => ag.nom)
        nom := some acces.nom }

/-- The uppercase alphabet used by `generateSecurePassword`. -/
def charsUppercase : List Char := "ABCDEFGHIJKLMNOPQRSTUVWXYZ".toList

/-- The lowercase alphabet used by `generateSecurePassword`. -/
def charsLowercase : List Char := "abcdefghijklmnopqrstuvwxyz".toList

/-- The digit alphabet used by `generateSecurePassword`. -/
def charsNumbers : List Char := "0123456789".toList

/-- The symbol alphabet used by `generateSecurePassword`. -/
def charsSpecial : List Char := "@#$%&*!?".toList

/-- The character class of the regex `[A-Z]` in `validatePassword`. -/
def isUppercaseChar (c : Char) : Bool := decide ('A' ≤ c) && decide (c ≤ 'Z')

/-- The character class of the regex `[0-9]` in `validatePassword`. -/
def isDigitChar (c : Char) : Bool := decide ('0' ≤ c) && decide (c ≤ '9')

/-- The ASCII lowercase range, used to state the complement class below. -/
def isLowercaseChar (c : Char) : Bool := decide ('a' ≤ c) && decide (c ≤ 'z')

/-- The character class of the regex `[^A-Za-z0-9]` in `validatePassword`. -/
def isSpecialChar (c : Char) : Bool :=
  !(isUppercaseChar c || isLowercaseChar c || isDigitChar c)

/-- The `{isValid, error?}` result of `validatePassword`. -/
structure PasswordValidation where
  isValid : Bool
  error : Option String
deriving DecidableEq, Repr

/-- `validatePassword` from src/lib/auth.ts: fail-fast checks for length at
least 8, one uppercase letter, one digit, and one non-alphanumeric
character.  Passwords are modelled as their character lists. -/
def validatePassword (password : List Char) : PasswordValidation :=
  if password.length < 8 then
    { isValid := false, error := some "Le mot de passe doit contenir au moins 8 caractères" }
  else if !(password.any isUppercaseChar) then
    { isValid := false, error := some "Le mot de passe doit contenir au moins une majuscule" }
  else if !(password.any isDigitChar) then
    { isValid := false, error := some "Le mot de passe doit contenir au moins un chiffre" }
  else if !(password.any isSpecialChar) then
    { isValid := false, error := some "Le mot de passe doit contenir au moins un caractère spécial" }
  else
    { isValid := true, error := none }

/-- The `getRandom` helper of `generateSecurePassword`: pick `draws.length`
characters from `chars`.  Each draw is the result of
`crypto.randomInt(0, chars.length)`; callers supply the hypothesis that the
draws are in range, under which `getD` never falls back to its default. -/
def getRandomChars (chars : List Char) (draws : List Nat) : List Char :=
  draws.map (fun k => chars.getD k ' ')

/-- One step of the shuffle in `generateSecurePassword`:
`[password[i], password[j]] = [password[j], password[i]]`. -/
def swapIdx (l : List Char) (i j : Nat) : List Char :=
  (l.set i (l.getD j ' ')).set j (l.getD i ' ')

/-- The loop indices `i = length-1, ..., 1` of the shuffle loop. -/
def shuffleIndices (n : Nat) : List Nat := ((List.range n).reverse).dropLast

/-- The Fisher-Yates loop of `generateSecurePassword`: for each `i` from
`length-1` down to `1`, swap position `i` with position `js i`, where `js i`
is the result of `crypto.randomInt(0, i + 1)` at that step. -/
def fisherYates (l : List Char) (js : Nat → Nat) : List Char :=
  (shuffleIndices l.length).foldl (fun acc i => swapIdx acc i (js i)) l

/-- `generateSecurePassword` from src/lib/auth.ts: concatenate 3 uppercase
letters, 3 digits, 2 symbols and 4 lowercase letters, then shuffle.  The
random draws are explicit inputs: `du`, `dn`, `ds`, `dl` are the per-alphabet
index draws and `js` the per-step swap draws. -/
def generateSecurePassword (du dn ds dl : List Nat) (js : Nat → Nat) : List Char :=
  let parts :=
    getRandomChars charsUppercase du ++ getRandomChars charsNumbers dn ++
    getRandomChars charsSpecial ds ++ getRandomChars charsLowercase dl
  fisherYates parts js

theorem length_swapIdx (l : List Char) (i j : Nat) : (swapIdx l i j).length = l.length := by
  simp [swapIdx]

theorem countP_swapIdx (p : Char → Bool) (l : List Char) (i j : Nat)
    (hi : i < l.length) (hj : j < l.length) :
    (swapIdx l i j).countP p = l.countP p := by
  have hgi : l.getD i ' ' = l[i] := by
    simp [List.getD_eq_getElem?_getD, List.getElem?_eq_getElem hi]
  have hgj : l.getD j ' ' = l[j] := by
    simp [List.getD_eq_getElem?_getD, List.getElem?_eq_getElem hj]
  have hj' : j < (l.set i (l.getD j ' ')).length := by simpa using hj
  have hxi : (if p l[i] then 1 else 0) ≤ l.countP p :=
    List.boole_getElem_le_countP p l i hi
  have hxj : (if p l[j] then 1 else 0) ≤ l.countP p :=
    List.boole_getElem_le_countP p l j hj
  unfold swapIdx
  rw [hgi, hgj]
  have hj2 : j < (l.set i (l[j])).length := by simpa using hj
  rw [List.countP_set _ _ _ _ hj2, List.countP_set _ _ _ _ hi]
  by_cases hij : i = j
  · subst hij
    rw [List.getElem_set_self hj2]
    omega
  · rw [List.getElem_set_ne hij hj2]
    omega

theorem length_foldl_swap (js : Nat → Nat) :
    ∀ (L : List Nat) (l : List Char),
      (L.foldl (fun acc i => swapIdx acc i (js i)) l).length = l.length := by
  intro L
  induction L with
  | nil => intro l; rfl
  | cons i T ih =>
    intro l
    simp only [List.foldl_cons]
    rw [ih, length_swapIdx]

theorem countP_foldl_swap (p : Char → Bool) (js : Nat → Nat) (hjs : ∀ i, js i ≤ i) :
    ∀ (L : List Nat) (l : List Char), (∀ i ∈ L, i < l.length) →
      (L.foldl (fun acc i => swapIdx acc i (js i)) l).countP p = l.countP p := by
  intro L
  induction L with
  | nil => intro l _; rfl
  | cons i T ih =>
    intro l hlt
    have hi : i < l.length := hlt i (by simp)
    have hj : js i < l.length := Nat.lt_of_le_of_lt (hjs i) hi
    simp only [List.foldl_cons]
    rw [ih (swapIdx l i (js i)) (by
      intro k hk
      rw [length_swapIdx]
      exact hlt k (by simp [hk]))]
    exact countP_swapIdx p l i (js i) hi hj

theorem mem_shuffleIndices_lt (n : Nat) : ∀ i ∈ shuffleIndices n, i < n := by
  intro i hi
  unfold shuffleIndices at hi
  have h1 : i ∈ (List.range n).reverse := (List.dropLast_sublist _).mem hi
  have h2 : i ∈ List.range n := List.mem_reverse.mp h1
  exact List.mem_range.mp h2

theorem countP_fisherYates (p : Char → Bool) (l : List Char) (js : Nat → Nat)
    (hjs : ∀ i, js i ≤ i) : (fisherYates l js).countP p = l.countP p := by
  unfold fisherYates
  exact countP_foldl_swap p js hjs _ l (mem_shuffleIndices_lt l.length)

theorem length_fisherYates (l : List Char) (js : Nat → Nat) :
    (fisherYates l js).length = l.length := by
  unfold fisherYates
  exact length_foldl_swap js _ l

theorem getRandomChars_all (chars : List Char) (draws : List Nat) (p : Char → Bool)
    (hc : ∀ k, k < chars.length → p (chars.getD k ' ') = true)
    (hd : ∀ k ∈ draws, k < chars.length) :
    (getRandomChars chars draws).countP p = draws.length := by
  unfold getRandomChars
  rw [← List.length_map draws (fun k => chars.getD k ' '), List.countP_eq_length]
  intro c hcmem
  obtain ⟨k, hk, rfl⟩ := List.mem_map.mp hcmem
  exact hc k (hd k hk)

theorem charsUppercase_class :
    ∀ k, k < 26 → isUppercaseChar (charsUppercase.getD k ' ') = true := by decide

theorem charsNumbers_class :
    ∀ k, k < 10 → isDigitChar (charsNumbers.getD k ' ') = true := by decide

theorem charsSpecial_class :
    ∀ k, k < 8 → isSpecialChar (charsSpecial.getD k ' ') = true := by decide

/-- Claim C8: every password produced by `generateSecurePassword` satisfies
`validatePassword`: for every outcome of the random draws (`du`, `dn`, `ds`,
`dl` within their alphabet bounds) and of the shuffle draws (`js i` within
`[0, i]`, as `crypto.randomInt(0, i + 1)` guarantees), the result has length
at least 8, contains an uppercase letter, a digit and a non-alphanumeric
character, and so `validatePassword` reports it valid. -/
theorem generateSecurePassword_satisfies_policy
    (du dn ds dl : List Nat) (js : Nat → Nat)
    (hdu : du.length = 3) (hdu26 : ∀ k ∈ du, k < 26)
    (hdn : dn.length = 3) (hdn10 : ∀ k ∈ dn, k < 10)
    (hds : ds.length = 2) (hds8 : ∀ k ∈ ds, k < 8)
    (hdl : dl.length = 4) (hdl26 : ∀ k ∈ dl, k < 26)
    (hjs : ∀ i, js i ≤ i) :
    8 ≤ (generateSecurePassword du dn ds dl js).length ∧
    (generateSecurePassword du dn ds dl js).any isUppercaseChar = true ∧
    (generateSecurePassword du dn ds dl js).any isDigitChar = true ∧
    (generateSecurePassword du dn ds dl js).any isSpecialChar = true ∧
    (validatePassword (generateSecurePassword du dn ds dl js)).isValid = true := by
  have hulen : charsUppercase.length = 26 := by decide
  have hnlen : charsNumbers.length = 10 := by decide
  have hslen : charsSpecial.length = 8 := by decide
  have hllen : charsLowercase.length = 26 := by decide
  set parts :=
    getRandomChars charsUppercase du ++ getRandomChars charsNumbers dn ++
    getRandomChars charsSpecial ds ++ getRandomChars charsLowercase dl with hparts
  have hpw : generateSecurePassword du dn ds dl js = fisherYates parts js := rfl
  have hplen : parts.length = 12 := by
    simp [hparts, getRandomChars, hdu, hdn, hds, hdl]
  have hlen : (generateSecurePassword du dn ds dl js).length = 12 := by
    rw [hpw, length_fisherYates, hplen]
  have hcount : ∀ p : Char → Bool,
      (generateSecurePassword du dn ds dl js).countP p = parts.countP p := by
    intro p
    rw [hpw]
    exact countP_fisherYates p parts js hjs
  have hany : ∀ p : Char → Bool, 1 ≤ parts.countP p →
      (generateSecurePassword du dn ds dl js).any p = true := by
    intro p hp
    have h1 : 1 ≤ (generateSecurePassword du dn ds dl js).countP p := by
      rw [hcount]; exact hp
    obtain ⟨a, ha, hpa⟩ := List.one_le_countP_iff.mp h1
    exact List.any_eq_true.mpr ⟨a, ha, hpa⟩
  have hcu : (getRandomChars charsUppercase du).countP isUppercaseChar = du.length :=
    getRandomChars_all _ _ _ (by rw [hulen]; exact charsUppercase_class)
      (by intro k hk; rw [hulen]; exact hdu26 k hk)
  have hcn : (getRandomChars charsNumbers dn).countP isDigitChar = dn.length :=
    getRandomChars_all _ _ _ (by rw [hnlen]; exact charsNumbers_class)
      (by intro k hk; rw [hnlen]; exact hdn10 k hk)
  have hcs : (getRandomChars charsSpecial ds).countP isSpecialChar = ds.length :=
    getRandomChars_all _ _ _ (by rw [hslen]; exact charsSpecial_class)
      (by intro k hk; rw [hslen]; exact hds8 k hk)
  have hup : 1 ≤ parts.countP isUppercaseChar := by
    simp only [hparts, List.countP_append]
    omega
  have hdi : 1 ≤ parts.countP isDigitChar := by
    simp only [hparts, List.countP_append]
    omega
  have hsp : 1 ≤ parts.countP isSpecialChar := by
    simp only [hparts, List.countP_append]
    omega
  have hau := hany _ hup
  have had := hany _ hdi
  have has := hany _ hsp
  refine ⟨by omega, hau, had, has, ?_⟩
  unfold validatePassword
  rw [hlen, hau, had, has]
  simp

theorem generateSecurePassword_satisfies_policy_witness :
    (validatePassword (generateSecurePassword [0, 1, 2] [0, 1, 2] [0, 1] [0, 1, 2, 3]
      (fun i => i))).isValid = true :=
  (generateSecurePassword_satisfies_policy [0, 1, 2] [0, 1, 2] [0, 1] [0, 1, 2, 3]
    (fun i => i) (by decide) (by decide) (by decide) (by decide) (by decide) (by decide)
    (by decide) (by decide) (fun i => Nat.le_refl i)).2.2.2.2

/-- Claim C9: `requireRole`, run after authentication, answers 401 when no
identity is attached; answers 403 carrying both the permitted role list and
the caller's own role when the attached identity's role is not permitted;
and passes the request through otherwise. -/
theorem requireRole_contract (roles : List Role) (user? : Option AuthedUser) :
    (user? = none → requireRole roles user? = .unauthenticated "Non authentifié") ∧
    (∀ u, user? = some u → roles.contains u.role = false →
      requireRole roles user? = .forbidden "Accès refusé - Rôle insuffisant" roles u.role) ∧
    (∀ u, user? = some u → roles.contains u.role = true →
      requireRole roles user? = .next) := by
  refine ⟨?_, ?_, ?_⟩
  · intro h
    subst h
    rfl
  · intro u hu hr
    subst hu
    simp only [requireRole, hr]
    rfl
  · intro u hu hr
    subst hu
    simp only [requireRole, hr]
    rfl

/-- A member-role identity used to exercise the 403 branch of the gate. -/
def memberUser : AuthedUser :=
  { id := "u9", email := "m@x.com", role := .member, agenceId := "ag1"
    isDemo := false, demoNom := none }

theorem requireRole_contract_witness :
    requireRole [Role.owner] (some memberUser) =
      .forbidden "Accès refusé - Rôle insuffisant" [Role.owner] Role.member :=
  (requireRole_contract [Role.owner] (some memberUser)).2.1 memberUser rfl (by decide)

/-- Claim C5: the admin and tenant planes never accept each other's tokens.
A request whose only credential is a (valid, tenant-payload) `auth_token` is
rejected by `requireAdmin`, which reads only the `admin_token` cookie; a
request whose only credential is a (valid, admin-payload) `admin_token` is
rejected by `authenticate`, which reads only the `demo_token` and
`auth_token` cookies. -/
theorem auth_planes_independent :
    (∀ (db : DB) (now : Nat) (t : Token) (p : JWTPayload),
      jwtVerify t now = some (.user p) →
      requireAdmin db { auth_token := some t, demo_token := none, admin_token := none } now =
        .err 401 "Non authentifié") ∧
    (∀ (db : DB) (now : Nat) (t : Token) (adminId email : String),
      jwtVerify t now = some (.admin adminId email) →
      authenticate db { admin_token := some t, auth_token := none, demo_token := none } now =
        .err 401 "Non authentifié - Token manquant") := by
  constructor
  · intro db now t p _
    rfl
  · intro db now t adminId email _
    rfl

/-- An admin row and the two well-signed tokens used to instantiate C5. -/
def adminRoot : SuperAdmin :=
  { id := "adm1", email := "root@x.com", motDePasse := hashPassword "Root1234!" 0
    nom := "Root", prenom := "Super", actif := true, dateCreation := 0
    derniereConnexion := none }

/-- A well-signed tenant token for user u1. -/
def tokTenant : Token :=
  generateJWT { userId := "u1", agenceId := "ag1", role := .owner } 0

/-- A well-signed admin token for admin adm1. -/
def tokAdmin : Token := Token.signed (.admin "adm1" "root@x.com") sevenDaysMs

/-- A store holding only the admin account, for the C5 witness. -/
def dbAdminOnly : DB :=
  { utilisateurs := [], sessions := [], accesTemporaires := []
    superAdmins := [adminRoot], agences := [] }

theorem auth_planes_independent_witness :
    requireAdmin dbAdminOnly
      { auth_token := some tokTenant, demo_token := none, admin_token := none } 0 =
      .err 401 "Non authentifié" ∧
    authenticate dbAdminOnly
      { admin_token := some tokAdmin, auth_token := none, demo_token := none } 0 =
      .err 401 "Non authentifié - Token manquant" :=
  ⟨auth_planes_independent.1 dbAdminOnly 0 tokTenant
    { userId := "u1", agenceId := "ag1", role := .owner } (by decide),
   auth_planes_independent.2 dbAdminOnly 0 tokAdmin "adm1" "root@x.com" (by decide)⟩

/-- Claim C4: when a `demo_token` cookie is present and verifies with the
`demo` type discriminator, and the referenced grant exists, is active and
has no expiration or a strictly future one, `authenticate` attaches the
synthesized principal (role fixed to member, tenant taken from the grant
row, identity derived from the grant id) whatever the contents of the
session store; and when the demo branch fails for any reason, evaluation
falls through to the normal `auth_token` path instead of rejecting. -/
theorem authenticate_demo_path :
    (∀ (db : DB) (cookies : Cookies) (now : Nat) (t : Token)
        (accesId agId nomTok : String) (acces : AccesTemporaire),
      cookies.demo_token = some t →
      jwtVerify t now = some (.demo accesId agId nomTok) →
      db.accesTemporaires.find? (fun a => a.id == accesId) = some acces →
      acces.actif = true →
      (acces.dateExpiration = none ∨ ∃ e, acces.dateExpiration = some e ∧ now < e) →
      ∀ ss : List Session,
        authenticate { db with sessions := ss } cookies now =
          .ok { id := "demo-" ++ acces.id
                email := acces.email.getD "demo@onlytrack.io"
                role := .member
                agenceId := acces.agenceId
                isDemo := true
                demoNom := some acces.nom }) ∧
    (∀ (db : DB) (cookies : Cookies) (now : Nat) (t : Token),
      cookies.demo_token = some t →
      demoAttempt db t now = none →
      authenticate db cookies now = authenticateNormalPath db cookies.auth_token now) := by
  constructor
  · intro db cookies now t accesId agId nomTok acces hct hv hf ha he ss
    have hattempt : demoAttempt { db with sessions := ss } t now =
        some { id := "demo-" ++ acces.id
               email := acces.email.getD "demo@onlytrack.io"
               role := .member
               agenceId := acces.agenceId
               isDemo := true
               demoNom := some acces.nom } := by
      have hcond : (acces.actif && (match acces.dateExpiration with
          | none => true
          | some e => decide (now < e))) = true := by
        rw [ha]
        rcases he with hnone | ⟨e, hsome, hlt⟩
        · rw [hnone]
          rfl
        · rw [hsome]
          simp [hlt]
      unfold demoAttempt
      rw [hv]
      simp only []
      rw [hf]
      simp only []
      rw [if_pos hcond]
    unfold authenticate
    rw [hct]
    simp only []
    rw [hattempt]
  · intro db cookies now t hct hnone
    unfold authenticate
    rw [hct]
    simp only []
    rw [hnone]

/-- An active, future-expiring temporary access grant. -/
def accesDemo : AccesTemporaire :=
  { id := "acc1", agenceId := "ag1", nom := "Client X", email := none
    token := "rawtok1", dateCreation := 0, dateExpiration := some 1000
    actif := true, creePar := "u1" }

/-- A well-signed demo token referencing `accesDemo`. -/
def tokDemo : Token := Token.signed (.demo "acc1" "ag1" "Client X") 500

/-- A store holding only the demo grant. -/
def dbDemo : DB :=
  { utilisateurs := [], sessions := [], accesTemporaires := [accesDemo]
    superAdmins := [], agences := [] }

theorem authenticate_demo_path_witness :
    authenticate { dbDemo with sessions := ([] : List Session) }
      { auth_token := none, demo_token := some tokDemo, admin_token := none } 10 =
      .ok { id := "demo-" ++ accesDemo.id
            email := accesDemo.email.getD "demo@onlytrack.io"
            role := .member
            agenceId := accesDemo.agenceId
            isDemo := true
            demoNom := some accesDemo.nom } :=
  authenticate_demo_path.1 dbDemo
    { auth_token := none, demo_token := some tokDemo, admin_token := none }
    10 tokDemo "acc1" "ag1" "Client X" accesDemo rfl (by decide) (by decide) (by decide)
    (Or.inr ⟨1000, rfl, by decide⟩) []

/-- Claim C10: a successful login always clears the `demo_token` cookie while
setting the `auth_token` cookie; and this matters because `authenticate`
evaluates a succeeding demo cookie before the `auth_token` cookie on every
request (second conjunct). -/
theorem connexion_clears_demo_cookie :
    (∀ (db : DB) (email password : String) (now : Nat) (sid : String) (ip ua : Option String),
      (connexion db email password now sid ip ua).status = 200 →
      (connexion db email password now sid ip ua).demoCleared = true ∧
      ∃ t, (connexion db email password now sid ip ua).authCookie = some t) ∧
    (∀ (db : DB) (cookies : Cookies) (now : Nat) (t : Token) (u : AuthedUser),
      cookies.demo_token = some t →
      demoAttempt db t now = some u →
      authenticate db cookies now = .ok u) := by
  constructor
  · intro db email password now sid ip ua hst
    unfold connexion at hst ⊢
    cases hfind : db.utilisateurs.find? (fun u => u.email == email) with
    | none =>
      rw [hfind] at hst
      simp at hst
    | some user =>
      rw [hfind] at hst
      simp only [] at hst ⊢
      by_cases hpw : verifyPassword password user.motDePasseHash = true
      · rw [hpw] at hst ⊢
        simp only [Bool.not_true, Bool.false_eq_true, if_false] at hst ⊢
        by_cases hev : user.emailVerifie = true
        · rw [hev] at hst ⊢
          simp only [Bool.not_true, Bool.false_eq_true, if_false] at hst ⊢
          by_cases hac : user.actif = true
          · rw [hac] at hst ⊢
            simp only [Bool.not_true, Bool.false_eq_true, if_false] at hst ⊢
            exact ⟨trivial, _, rfl⟩
          · rw [Bool.not_eq_true] at hac
            rw [hac] at hst
            simp at hst
        · rw [Bool.not_eq_true] at hev
          rw [hev] at hst
          simp at hst
      · rw [Bool.not_eq_true] at hpw
        rw [hpw] at hst
        simp at hst
  · intro db cookies now t u hct hda
    unfold authenticate
    rw [hct]
    simp only []
    rw [hda]

/-- A verified, active owner account used by several witnesses. -/
def uAna : Utilisateur :=
  { id := "u1", prenom := "Ana", nom := "Dupont", email := "ana@x.com"
    motDePasseHash := hashPassword "Abcd1234!" 7, role := .owner, agenceId := "ag1"
    emailVerifie := true, tokenVerification := none, tokenResetPassword := none
    dateCreation := 0, derniereConnexion := none, actif := true }

/-- A store holding only that account. -/
def dbAna : DB :=
  { utilisateurs := [uAna], sessions := [], accesTemporaires := []
    superAdmins := [], agences := [] }

theorem connexion_clears_demo_cookie_witness :
    (connexion dbAna "ana@x.com" "Abcd1234!" 0 "sid1" none none).demoCleared = true ∧
    ∃ t, (connexion dbAna "ana@x.com" "Abcd1234!" 0 "sid1" none none).authCookie = some t :=
  connexion_clears_demo_cookie.1 dbAna "ana@x.com" "Abcd1234!" 0 "sid1" none none (by decide)

/-- Claim C6: with valid credentials (and a verified, active account) login
sets an `auth_token` cookie and inserts a session row whose stored digest is
`hashToken` of the issued token; with an unknown email or a wrong password no
session row is inserted and the response is 401 with the same message in
both cases — the response does not distinguish the two failures. -/
theorem connexion_contract (db : DB) (email password : String) (now : Nat)
    (sid : String) (ip ua : Option String) :
    (∀ u, db.utilisateurs.find? (fun x => x.email == email) = some u →
      verifyPassword password u.motDePasseHash = true →
      u.emailVerifie = true → u.actif = true →
      ∃ t, (connexion db email password now sid ip ua).status = 200 ∧
        (connexion db email password now sid ip ua).authCookie = some t ∧
        ∃ s ∈ (connexion db email password now sid ip ua).db.sessions,
          s.tokenHash = hashToken t) ∧
    (db.utilisateurs.find? (fun x => x.email == email) = none →
      (connexion db email password now sid ip ua).status = 401 ∧
      (connexion db email password now sid ip ua).error = some "Email ou mot de passe incorrect" ∧
      (connexion db email password now sid ip ua).db.sessions = db.sessions) ∧
    (∀ u, db.utilisateurs.find? (fun x => x.email == email) = some u →
      verifyPassword password u.motDePasseHash = false →
      (connexion db email password now sid ip ua).status = 401 ∧
      (connexion db email password now sid ip ua).error = some "Email ou mot de passe incorrect" ∧
      (connexion db email password now sid ip ua).db.sessions = db.sessions) := by
  refine ⟨?_, ?_, ?_⟩
  · intro u hf hpw hev hac
    unfold connexion
    rw [hf]
    simp only []
    rw [hpw, hev, hac]
    simp only [Bool.not_true, Bool.false_eq_true, if_false]
    refine ⟨generateJWT { userId := u.id, agenceId := u.agenceId, role := u.role } now,
      trivial, rfl, ?_⟩
    refine ⟨{ id := sid, utilisateurId := u.id
              tokenHash := hashToken (generateJWT
                { userId := u.id, agenceId := u.agenceId, role := u.role } now)
              dateCreation := now, dateExpiration := now + sevenDaysMs
              adresseIp := ip, userAgent := ua }, ?_, rfl⟩
    exact List.mem_append_right _ (List.mem_singleton.mpr rfl)
  · intro hf
    unfold connexion
    rw [hf]
    exact ⟨rfl, rfl, rfl⟩
  · intro u hf hpw
    unfold connexion
    rw [hf]
    simp only []
    rw [hpw]
    exact ⟨rfl, rfl, rfl⟩

theorem connexion_contract_witness :
    (∃ t, (connexion dbAna "ana@x.com" "Abcd1234!" 0 "sid1" none none).status = 200 ∧
      (connexion dbAna "ana@x.com" "Abcd1234!" 0 "sid1" none none).authCookie = some t ∧
      ∃ s ∈ (connexion dbAna "ana@x.com" "Abcd1234!" 0 "sid1" none none).db.sessions,
        s.tokenHash = hashToken t) ∧
    ((connexion dbAna "ana@x.com" "Wrong999?" 0 "sid1" none none).status = 401 ∧
      (connexion dbAna "ana@x.com" "Wrong999?" 0 "sid1" none none).error =
        some "Email ou mot de passe incorrect" ∧
      (connexion dbAna "ana@x.com" "Wrong999?" 0 "sid1" none none).db.sessions =
        dbAna.sessions) ∧
    ((connexion dbAna "zoe@x.com" "Abcd1234!" 0 "sid1" none none).status = 401 ∧
      (connexion dbAna "zoe@x.com" "Abcd1234!" 0 "sid1" none none).error =
        some "Email ou mot de passe incorrect" ∧
      (connexion dbAna "zoe@x.com" "Abcd1234!" 0 "sid1" none none).db.sessions =
        dbAna.sessions) :=
  ⟨(connexion_contract dbAna "ana@x.com" "Abcd1234!" 0 "sid1" none none).1 uAna
      (by decide) (by decide) (by decide) (by decide),
   (connexion_contract dbAna "ana@x.com" "Wrong999?" 0 "sid1" none none).2.2 uAna
      (by decide) (by decide),
   (connexion_contract dbAna "zoe@x.com" "Abcd1234!" 0 "sid1" none none).2.1
      (by decide)⟩

/-- A cookie jar presenting only Ana's freshly issued token. -/
def cookiesAna : Cookies :=
  { auth_token := some tokTenant, demo_token := none, admin_token := none }

/-- Counterexample to claim C3 as stated: with a valid token for an active
user but an empty session store, the strict middleware fails its session
check, yet `authenticateOptional` still attaches the identity — it does not
perform the session-row step at all. -/
theorem authenticateOptional_attaches_despite_expired_session :
    dbAna.sessions = [] ∧
    authenticate dbAna cookiesAna 10 = .err 401 "Session expirée" ∧
    authenticateOptional dbAna cookiesAna 10 =
      some { id := "u1", email := "ana@x.com", role := .owner, agenceId := "ag1"
             isDemo := false, demoNom := none } := by
  decide

/-- Claim C3 as amended: `authenticateOptional` performs steps 2, 3 and 5 of
the strict middleware but not the session check (step 4): in the absence of
a demo cookie it attaches exactly the identity the strict middleware
attaches whenever the strict middleware succeeds, attaches nothing only when
the strict middleware fails, never returns an error response (its type has
no error outcome), and its result never depends on the session store. -/
theorem authenticateOptional_skips_session_check (db : DB) (cookies : Cookies) (now : Nat)
    (hdemo : cookies.demo_token = none) :
    (∀ u, authenticate db cookies now = .ok u → authenticateOptional db cookies now = some u) ∧
    (authenticateOptional db cookies now = none →
      ∃ st msg, authenticate db cookies now = .err st msg) ∧
    (∀ ss : List Session,
      authenticateOptional { db with sessions := ss } cookies now =
        authenticateOptional db cookies now) := by
  have hauth : authenticate db cookies now = authenticateNormalPath db cookies.auth_token now := by
    unfold authenticate
    rw [hdemo]
  refine ⟨?_, ?_, fun ss => rfl⟩
  · intro u h
    rw [hauth] at h
    unfold authenticateNormalPath at h
    unfold authenticateOptional verifyJWT
    cases hct : cookies.auth_token with
    | none =>
      rw [hct] at h
      simp at h
    | some t =>
      rw [hct] at h
      simp only [] at h ⊢
      cases hv : jwtVerify t now with
      | none =>
        rw [hv] at h
        simp at h
      | some c =>
        rw [hv] at h
        cases c with
        | user p =>
          simp only [] at h ⊢
          cases hs : findValidSession db p.userId now with
          | none =>
            rw [hs] at h
            simp at h
          | some s =>
            rw [hs] at h
            simp only [] at h
            cases hu : db.utilisateurs.find? (fun x => x.id == p.userId) with
            | none =>
              rw [hu] at h
              simp at h
            | some usr =>
              rw [hu] at h
              simp only [] at h ⊢
              cases hactif : usr.actif with
              | true =>
                rw [if_pos rfl]
                rw [hactif, if_pos rfl] at h
                injection h with h1
                rw [h1]
              | false =>
                rw [hactif, if_neg Bool.false_ne_true] at h
                simp at h
        | demo accesId agId nomTok =>
          simp at h
        | admin adminId em =>
          simp at h
  · intro hopt
    rw [hauth]
    unfold authenticateNormalPath
    unfold authenticateOptional verifyJWT at hopt
    cases hct : cookies.auth_token with
    | none => exact ⟨401, "Non authentifié - Token manquant", rfl⟩
    | some t =>
      rw [hct] at hopt
      simp only [] at hopt ⊢
      cases hv : jwtVerify t now with
      | none => exact ⟨401, "Non authentifié - Token invalide", rfl⟩
      | some c =>
        rw [hv] at hopt
        cases c with
        | user p =>
          simp only [] at hopt ⊢
          cases hs : findValidSession db p.userId now with
          | none => exact ⟨401, "Session expirée", rfl⟩
          | some s =>
            simp only []
            cases hu : db.utilisateurs.find? (fun x => x.id == p.userId) with
            | none =>
              rw [hu] at hopt
              exact ⟨401, "Utilisateur inactif ou inexistant", rfl⟩
            | some usr =>
              rw [hu] at hopt
              simp only [] at hopt ⊢
              cases hactif : usr.actif with
              | true =>
                rw [hactif, if_pos rfl] at hopt
                simp at hopt
              | false =>
                exact ⟨401, "Utilisateur inactif ou inexistant",
                  by rw [if_neg Bool.false_ne_true]⟩
        | demo accesId agId nomTok =>
          exact ⟨500, "Erreur serveur lors de l\x27authentification", rfl⟩
        | admin adminId em =>
          exact ⟨500, "Erreur serveur lors de l\x27authentification", rfl⟩

/-- The session row created for `tokTenant` at login time. -/
def sessAna : Session :=
  { id := "s1", utilisateurId := "u1", tokenHash := hashToken tokTenant
    dateCreation := 0, dateExpiration := sevenDaysMs, adresseIp := none, userAgent := none }

/-- Ana's store with her own live session present. -/
def dbAnaSess : DB :=
  { utilisateurs := [uAna], sessions := [sessAna], accesTemporaires := []
    superAdmins := [], agences := [] }

theorem authenticateOptional_skips_session_check_witness :
    authenticateOptional dbAnaSess cookiesAna 10 =
      some { id := "u1", email := "ana@x.com", role := .owner, agenceId := "ag1"
             isDemo := false, demoNom := none } :=
  (authenticateOptional_skips_session_check dbAnaSess cookiesAna 10 rfl).1
    { id := "u1", email := "ana@x.com", role := .owner, agenceId := "ag1"
      isDemo := false, demoNom := none } (by decide)

/-- A second concurrent session of the same user, backing a different token. -/
def tokOther : Token :=
  generateJWT { userId := "u1", agenceId := "ag1", role := .owner } 5

/-- The session row backing `tokOther`. -/
def sessOther : Session :=
  { id := "s2", utilisateurId := "u1", tokenHash := hashToken tokOther
    dateCreation := 5, dateExpiration := 5 + sevenDaysMs, adresseIp := none, userAgent := none }

/-- A store where the only session row belongs to a different token than the
one presented. -/
def dbGhost : DB :=
  { utilisateurs := [uAna], sessions := [sessOther], accesTemporaires := []
    superAdmins := [], agences := [] }

/-- Claim C1 evaluated at its failing input: `authenticate` accepts the
request although no session row stores the digest of the presented token —
the session lookup (src/middleware/auth.ts) filters on `utilisateurId` and
`dateExpiration` only and never consults the stored `tokenHash`. -/
theorem authenticate_ignores_token_digest :
    authenticate dbGhost cookiesAna 10 =
      .ok { id := "u1", email := "ana@x.com", role := .owner, agenceId := "ag1"
            isDemo := false, demoNom := none } ∧
    dbGhost.sessions.all (fun s => !(s.tokenHash == hashToken tokTenant)) = true := by
  decide

/-- A store where the user holds two concurrent sessions. -/
def dbTwoSessions : DB :=
  { utilisateurs := [uAna], sessions := [sessAna, sessOther], accesTemporaires := []
    superAdmins := [], agences := [] }

/-- Claim C2 evaluated at its failing input: logout deletes exactly the
session row whose digest matches the presented token, yet the very same
token is still accepted afterwards because the middleware matches sessions
by user id — revocation only takes effect once the user has no other live
session (third conjunct). -/
theorem logout_does_not_revoke_with_second_session :
    (deconnexionDelete dbTwoSessions cookiesAna).sessions = [sessOther] ∧
    authenticate (deconnexionDelete dbTwoSessions cookiesAna) cookiesAna 10 =
      .ok { id := "u1", email := "ana@x.com", role := .owner, agenceId := "ag1"
            isDemo := false, demoNom := none } ∧
    authenticate (deconnexionDelete dbAnaSess cookiesAna) cookiesAna 10 =
      .err 401 "Session expirée" := by
  decide

/-- An active grant whose expiration equals the current instant. -/
def accesBoundary : AccesTemporaire :=
  { id := "acc2", agenceId := "ag1", nom := "Boundary", email := none
    token := "tokT", dateCreation := 0, dateExpiration := some 5
    actif := true, creePar := "u1" }

/-- A store holding only the boundary grant. -/
def dbBoundary : DB :=
  { utilisateurs := [], sessions := [], accesTemporaires := [accesBoundary]
    superAdmins := [], agences := [] }

/-- Counterexample to claim C7 as stated: a grant whose expiration equals
the current time (`dateExpiration = some 5`, `now = 5`) is accepted by all
three endpoints, although its expiration is not in the future — the code
rejects only expirations strictly in the past. -/
theorem temporaryAccess_boundary_counterexample :
    (demoValidate dbBoundary "tokT" 5).status = 200 ∧
    (demoAccess dbBoundary "tokT" 5).status = 200 ∧
    (accesValider dbBoundary "tokT" 5).status = 200 ∧
    accesBoundary.dateExpiration = some 5 ∧ ¬ (5 : Nat) < 5 := by
  decide

/-- Claim C7 as amended: an inactive grant is rejected (403) by the demo
validation, demo exchange and public validation endpoints regardless of its
expiration; an active grant whose expiration is strictly in the past is also
rejected by all three; and acceptance by any of them requires that the grant
exists, is active, and has no expiration or an expiration at or after the
current time (not strictly after: a grant expiring at the current instant is
still accepted). -/
theorem temporaryAccess_rejection (db : DB) (tokenParam : String) (now : Nat) :
    (∀ a, db.accesTemporaires.find? (fun x => x.token == tokenParam) = some a →
      a.actif = false →
      (demoValidate db tokenParam now).status = 403 ∧
      (demoAccess db tokenParam now).status = 403 ∧
      (accesValider db tokenParam now).status = 403) ∧
    (∀ a e, db.accesTemporaires.find? (fun x => x.token == tokenParam) = some a →
      a.actif = true → a.dateExpiration = some e → e < now →
      (demoValidate db tokenParam now).status = 403 ∧
      (demoAccess db tokenParam now).status = 403 ∧
      (accesValider db tokenParam now).status = 403) ∧
    ((demoValidate db tokenParam now).status = 200 ∨
      (demoAccess db tokenParam now).status = 200 ∨
      (accesValider db tokenParam now).status = 200 →
      ∃ a, db.accesTemporaires.find? (fun x => x.token == tokenParam) = some a ∧
        a.actif = true ∧
        (a.dateExpiration = none ∨ ∃ e, a.dateExpiration = some e ∧ now ≤ e)) := by
  refine ⟨?_, ?_, ?_⟩
  · intro a hf ha
    unfold demoValidate demoAccess accesValider
    rw [hf]
    simp only []
    rw [ha]
    exact ⟨rfl, rfl, rfl⟩
  · intro a e hf ha he hlt
    have hd1 : decide (e < now) = true := decide_eq_true hlt
    have hd2 : decide (now > e) = true := decide_eq_true hlt
    unfold demoValidate demoAccess accesValider
    rw [hf]
    simp only []
    rw [ha, he]
    simp only []
    simp only [hd1, hd2]
    exact ⟨rfl, rfl, rfl⟩
  · intro h
    cases hf : db.accesTemporaires.find? (fun x => x.token == tokenParam) with
    | none =>
      exfalso
      unfold demoValidate demoAccess accesValider at h
      rw [hf] at h
      simp at h
    | some a =>
      by_cases hact : a.actif = true
      · cases hexp : a.dateExpiration with
        | none => exact ⟨a, rfl, hact, Or.inl hexp⟩
        | some e =>
          by_cases hlt : e < now
          · exfalso
            unfold demoValidate demoAccess accesValider at h
            rw [hf] at h
            simp only [] at h
            rw [hact, hexp] at h
            simp [hlt] at h
          · exact ⟨a, rfl, hact, Or.inr ⟨e, hexp, Nat.le_of_not_lt hlt⟩⟩
      · exfalso
        rw [Bool.not_eq_true] at hact
        unfold demoValidate demoAccess accesValider at h
        rw [hf] at h
        simp only [] at h
        rw [hact] at h
        simp at h

/-- A revoked grant (active flag off, expiration far in the future). -/
def accesRevoked : AccesTemporaire :=
  { id := "acc3", agenceId := "ag1", nom := "Revoked", email := none
    token := "tokR", dateCreation := 0, dateExpiration := some 99999
    actif := false, creePar := "u1" }

/-- A store holding only the revoked grant. -/
def dbRevoked : DB :=
  { utilisateurs := [], sessions := [], accesTemporaires := [accesRevoked]
    superAdmins := [], agences := [] }

theorem temporaryAccess_rejection_witness :
    ((demoValidate dbRevoked "tokR" 3).status = 403 ∧
      (demoAccess dbRevoked "tokR" 3).status = 403 ∧
      (accesValider dbRevoked "tokR" 3).status = 403) ∧
    ((demoValidate dbBoundary "tokT" 7).status = 403 ∧
      (demoAccess dbBoundary "tokT" 7).status = 403 ∧
      (accesValider dbBoundary "tokT" 7).status = 403) :=
  ⟨(temporaryAccess_rejection dbRevoked "tokR" 3).1 accesRevoked (by decide) (by decide),
   (temporaryAccess_rejection dbBoundary "tokT" 7).2.1 accesBoundary 5
      (by decide) (by decide) (by decide) (by decide)⟩
